import Mathlib

/-!
Verification of the couples Q&A journal service (`app.py`).

We give a shallow embedding of the data model (SQLite rows become Lean
structures, the database becomes lists of rows) and of every route handler
the claims mention: `post_answer` (the answer-submission transaction),
`get_state`, `get_history`, `serve_audio` and `get_pending_questions`.
Exceptions raised inside the transaction body are modelled by an explicit
failure-injection parameter; the `except` handler's rollback and blob
cleanup are modelled by returning the pre-transaction database together
with the compensated blob store.
-/

namespace Journal

/-- A row of the `Answers` table. -/
structure AnswerRow where
  questionId : Nat
  userId : String
  audioFilename : String
  timestamp : Nat
deriving DecidableEq, Repr

/-- A row of the `Questions` table. -/
structure QuestionRow where
  id : Nat
  text : String
deriving DecidableEq, Repr

/-- The singleton `CoupleState` row (id = 1). -/
structure CoupleStateRow where
  love_points : Int
  streak_count : Int
  last_streak_update_date : String
  daily_progress_date : String
  daily_random_answered : Nat
  daily_manual_answered : Nat
deriving DecidableEq, Repr

/-- The SQLite database: the three tables plus the autoincrement counter
feeding `cursor.lastrowid` for `Questions`. -/
structure DB where
  questions : List QuestionRow
  answers : List AnswerRow
  coupleState : Option CoupleStateRow
  nextQuestionId : Nat
deriving DecidableEq, Repr

/-- Server state seen by a request: the database plus the upload folder
(blob store), the latter as the list of filenames present. -/
structure St where
  db : DB
  blobs : List String
deriving DecidableEq, Repr

/-- Request-time environment: `datetime.now()` derived values and the
`uuid.uuid4()` draw used to name the blob. -/
structure Env where
  today : String
  yesterday : String
  now_ms : Nat
  newBlobName : String
deriving DecidableEq, Repr

/-- The multipart form of `POST /api/answer`; `none` models a missing
field, `audioFile` carries the uploaded file's client-side filename. -/
structure AnswerRequest where
  userId : Option String
  questionText : Option String
  source : Option String
  audioFile : Option String
deriving DecidableEq, Repr

/-- Body of the 201 response of `post_answer`. -/
structure AnswerResponse where
  pointAwarded : Int
  lovePoints : Int
  streak : Int
  lastStreakUpdateDate : String
  dailyRandomAnswered : Nat
  dailyManualAnswered : Nat
deriving DecidableEq, Repr

/-- An HTTP error: status code and message. -/
abbrev Err := Nat × String

/-- Constant `ALLOWED_EXTENSIONS`. -/
def ALLOWED_EXTENSIONS : List String := ["webm", "mp3", "ogg", "wav", "m4a"]

/-- ASCII whitespace stripped by `str.strip()`. -/
def isPySpace (c : Char) : Bool :=
  c == ' ' || c == '\t' || c == '\n' || c == '\r' || c == '\x0b' || c == '\x0c'

/-- Python `str.strip()`: remove whitespace from both ends. -/
def pyStrip (s : String) : String :=
  String.mk (((s.data.dropWhile isPySpace).reverse.dropWhile isPySpace).reverse)

/-- Lowering of one character, as `str.lower()` acts on ASCII. -/
def lowerChar (c : Char) : Char :=
  if 'A' ≤ c && c ≤ 'Z' then Char.ofNat (c.toNat + 32) else c

/-- Characters after the last dot, as in `rsplit('.', 1)[1]`. -/
def extChars (l : List Char) : List Char :=
  (l.reverse.takeWhile (fun c => c != '.')).reverse

/-- Extension extraction `filename.rsplit('.', 1)[1].lower()`. -/
def extOf (filename : String) : String :=
  String.mk ((extChars filename.data).map lowerChar)

/-- Function `allowed_file`: the filename contains a dot and the piece after the
last dot, lowercased, is an allowed extension. -/
def allowed_file (filename : String) : Bool :=
  filename.data.any (fun c => c == '.') &&
    ALLOWED_EXTENSIONS.contains (extOf filename)

/-- Check `'userId' in request.form and request.form['userId'] in ['nidhi','arpan']`. -/
def validUserIdField : Option String → Bool
  | some u => u == "nidhi" || u == "arpan"
  | none => false

/-- Check `'questionText' in request.form and request.form['questionText']`
(Python string truthiness: non-empty). -/
def presentNonEmptyText : Option String → Bool
  | some t => t != ""
  | none => false

/-- Check `'source' in request.form and request.form['source'] in ['manual','random']`. -/
def validSourceField : Option String → Bool
  | some s => s == "manual" || s == "random"
  | none => false

/-- Counterpart lookup `other_user = 'arpan' if user_id == 'nidhi' else 'nidhi'`. -/
def otherUser (user_id : String) : String :=
  if user_id == "nidhi" then "arpan" else "nidhi"

/-- Question resolution: `SELECT id FROM Questions WHERE text = ?`, else
`INSERT INTO Questions (text) VALUES (?)` and take `lastrowid`. -/
def resolveQuestion (db : DB) (text : String) : Nat × DB :=
  match db.questions.find? (fun q => q.text == text) with
  | some q => (q.id, db)
  | none =>
      (db.nextQuestionId,
       { db with
           questions := db.questions ++ [⟨db.nextQuestionId, text⟩],
           nextQuestionId := db.nextQuestionId + 1 })

/-- Query `SELECT COUNT(*) FROM Answers WHERE question_id = ? AND user_id = ?`. -/
def countAnswers (db : DB) (qid : Nat) (uid : String) : Nat :=
  (db.answers.filter (fun a => a.questionId == qid && a.userId == uid)).length

/-- The streak block of `post_answer`: returns the new
`(streak_count, last_streak_update_date)`. -/
def streakUpdate (state : CoupleStateRow) (points_to_add : Int)
    (today yesterday : String) : Int × String :=
  if points_to_add > 0 && state.last_streak_update_date != today then
    (if state.last_streak_update_date == yesterday then state.streak_count + 1
     else 1,
     today)
  else
    (state.streak_count, state.last_streak_update_date)

/-- The daily-progress-flag block of `post_answer`: returns the new
`(daily_progress_date, daily_random_answered, daily_manual_answered)`. -/
def dailyFlags (state : CoupleStateRow) (source today : String) :
    String × Nat × Nat :=
  let reset := state.daily_progress_date != today
  let d := if reset then today else state.daily_progress_date
  let r := if reset then 0 else state.daily_random_answered
  let m := if reset then 0 else state.daily_manual_answered
  if source == "random" && r == 0 then (d, 1, m)
  else if source == "manual" && m == 0 then (d, r, 1)
  else (d, r, m)

/-- Points in the transaction body at which an exception may be raised
(filesystem or SQLite failure); the in-code `raise` for a missing
`CoupleState` row is triggered by the database content itself. -/
inductive FailPoint where
  | resolveQuestion
  | saveBlob
  | insertAnswer
  | updateState
  | commit
deriving DecidableEq, Repr

/-- The `try` block of `post_answer` plus its `except` handler, after
validation has passed. `fail` injects an exception at the given step;
`removeFails` makes the compensating `os.remove` raise `OSError` (caught
and logged). On any failure the database transaction is rolled back (the
original `st.db` is returned) and the written blob, if any, is removed. -/
def answerTransaction (env : Env) (user_id question_text source af : String)
    (fail : Option FailPoint) (removeFails : Bool) (st : St) :
    Except Err AnswerResponse × St :=
  let other_user := otherUser user_id
  if fail = some .resolveQuestion then
    (.error (500, "Failed to process answer"), st)
  else
    let resolved := resolveQuestion st.db question_text
    let question_id := resolved.1
    let db1 := resolved.2
    if fail = some .saveBlob then
      (.error (500, "Failed to process answer"), st)
    else
      let unique_filename := env.newBlobName ++ "." ++ extOf af
      let blobs1 := st.blobs ++ [unique_filename]
      let cleaned := if removeFails then blobs1
                     else blobs1.filter (fun b => b != unique_filename)
      if fail = some .insertAnswer then
        (.error (500, "Failed to process answer"), { db := st.db, blobs := cleaned })
      else
        let db2 := { db1 with
          answers := db1.answers ++
            [⟨question_id, user_id, unique_filename, env.now_ms⟩] }
        let other_answered_count := countAnswers db2 question_id other_user
        let points_to_add : Int := if other_answered_count = 0 then 1 else 5
        match db2.coupleState with
        | none =>
            (.error (500, "Failed to process answer: CoupleState not found during update"),
             { db := st.db, blobs := cleaned })
        | some state =>
            let new_points := state.love_points + points_to_add
            let sres := streakUpdate state points_to_add env.today env.yesterday
            let dres := dailyFlags state source env.today
            if fail = some .updateState then
              (.error (500, "Failed to process answer"), { db := st.db, blobs := cleaned })
            else
              let newState : CoupleStateRow :=
                { love_points := new_points,
                  streak_count := sres.1,
                  last_streak_update_date := sres.2,
                  daily_progress_date := dres.1,
                  daily_random_answered := dres.2.1,
                  daily_manual_answered := dres.2.2 }
              let db3 := { db2 with coupleState := some newState }
              if fail = some .commit then
                (.error (500, "Failed to process answer"), { db := st.db, blobs := cleaned })
              else
                (.ok
                  { pointAwarded := points_to_add,
                    lovePoints := newState.love_points,
                    streak := newState.streak_count,
                    lastStreakUpdateDate := newState.last_streak_update_date,
                    dailyRandomAnswered :=
                      if newState.daily_progress_date == env.today then
                        newState.daily_random_answered else 0,
                    dailyManualAnswered :=
                      if newState.daily_progress_date == env.today then
                        newState.daily_manual_answered else 0 },
                 { db := db3, blobs := blobs1 })

/-- Handler of `POST /api/answer`: validation followed by the transaction. -/
def post_answer (env : Env) (req : AnswerRequest) (fail : Option FailPoint)
    (removeFails : Bool) (st : St) : Except Err AnswerResponse × St :=
  if !validUserIdField req.userId then
    (.error (400, "Missing or invalid userId"), st)
  else if !presentNonEmptyText req.questionText then
    (.error (400, "Missing questionText"), st)
  else if !validSourceField req.source then
    (.error (400, "Missing or invalid source"), st)
  else
    match req.audioFile with
    | none => (.error (400, "Missing audioFile"), st)
    | some af =>
        if af == "" || !allowed_file af then
          (.error (400, "Invalid audio file type"), st)
        else
          answerTransaction env (req.userId.getD "")
            (pyStrip (req.questionText.getD "")) (req.source.getD "") af
            fail removeFails st

/-- Body of the `GET /api/state` response. -/
structure StateResponse where
  lovePoints : Int
  streak : Int
  lastStreakUpdateDate : String
  dailyRandomAnswered : Nat
  dailyManualAnswered : Nat
deriving DecidableEq, Repr

/-- Handler of `GET /api/state`: reads the `CoupleState` row and derives today's
effective daily flags; the handler issues only a `SELECT`, so the
database comes back unchanged. -/
def get_state (env : Env) (db : DB) : Except Err StateResponse × DB :=
  match db.coupleState with
  | none => (.error (500, "Could not retrieve couple state"), db)
  | some s =>
      (.ok
        { lovePoints := s.love_points,
          streak := s.streak_count,
          lastStreakUpdateDate := s.last_streak_update_date,
          dailyRandomAnswered :=
            if s.daily_progress_date == env.today then s.daily_random_answered
            else 0,
          dailyManualAnswered :=
            if s.daily_progress_date == env.today then s.daily_manual_answered
            else 0 },
       db)

/-- One retained answer in a history entry: the audio URL built by
`url_for('serve_audio', ...)` and the answer's timestamp. -/
structure HistoryAnswer where
  audioUrl : String
  timestamp : Nat
deriving DecidableEq, Repr

/-- One element of the `/api/history` response; `answers` is the Python
dict `user_id -> {audioUrl, timestamp}` as an association list in
insertion order. -/
structure HistoryEntry where
  id : Nat
  text : String
  answers : List (String × HistoryAnswer)
deriving DecidableEq, Repr

/-- The `HistoryAnswer` built from an `Answers` row. -/
def mkHA (a : AnswerRow) : HistoryAnswer :=
  ⟨"/api/audio/" ++ a.audioFilename, a.timestamp⟩

/-- The dict update of `get_history`: store the answer for `user` if the
user has no entry yet or this answer's timestamp is strictly greater. -/
def updAnswer (m : List (String × HistoryAnswer)) (user : String)
    (ha : HistoryAnswer) : List (String × HistoryAnswer) :=
  match m.lookup user with
  | none => m ++ [(user, ha)]
  | some old =>
      if old.timestamp < ha.timestamp then
        m.map (fun p => if p.1 = user then (user, ha) else p)
      else m

/-- Processing of one `Answers` row against one history entry
(the `if q_id in questions` guard becomes the id test). -/
def stepEntry (a : AnswerRow) (e : HistoryEntry) : HistoryEntry :=
  if e.id = a.questionId then
    { e with answers := updAnswer e.answers a.userId (mkHA a) }
  else e

/-- Sort key of `get_history`: greatest retained answer timestamp, with
`default=0` for questions with no answers. -/
def histKey (e : HistoryEntry) : Nat :=
  (e.answers.map (fun p => p.2.timestamp)).foldl max 0

/-- Handler of `GET /api/history`: questions fetched ordered by id descending,
answers folded in timestamp-descending order keeping the latest answer
per user per question, result sorted by `histKey` descending. -/
def get_history (db : DB) : List HistoryEntry :=
  let base := (db.questions.insertionSort (fun x y => x.id ≥ y.id)).map
    (fun q => HistoryEntry.mk q.id q.text [])
  let sortedAnswers :=
    db.answers.insertionSort (fun x y => x.timestamp ≥ y.timestamp)
  let filled := sortedAnswers.foldl (fun es a => es.map (stepEntry a)) base
  filled.insertionSort (fun x y => histKey x ≥ histKey y)

/-- Check `'..' in filename` (substring containment). -/
def hasDotDot : List Char → Bool
  | '.' :: '.' :: _ => true
  | _ :: rest => hasDotDot rest
  | [] => false

/-- Check `filename.startswith('/')`. -/
def startsSlash : List Char → Bool
  | '/' :: _ => true
  | _ => false

/-- Handler of `GET /api/audio/<filename>`: the traversal check runs before any
filesystem access; `send_from_directory` is the external collaborator
that raises `FileNotFoundError` when the blob is absent, mapped to 404. -/
def serve_audio (blobs : List String) (filename : String) :
    Except Err String :=
  if hasDotDot filename.data || startsSlash filename.data then
    .error (400, "Invalid filename")
  else if blobs.contains filename then
    .ok filename
  else
    .error (404, "Audio file not found")

/-- One element of the `/api/pending/<user_id>` response. -/
structure PendingEntry where
  id : Nat
  text : String
  asked_by : String
  timestamp : Nat
deriving DecidableEq, Repr

/-- Aggregate `MAX(timestamp)` over a user's answers to a question, with the
handler's `or 0` for the NULL of an empty aggregate. -/
def maxTsFor (db : DB) (qid : Nat) (uid : String) : Nat :=
  ((db.answers.filter (fun a => a.questionId == qid && a.userId == uid)).map
    (fun a => a.timestamp)).foldl max 0

/-- Handler of `GET /api/pending/<user_id>`. -/
def get_pending_questions (db : DB) (user_id : String) :
    Except Err (List PendingEntry) :=
  if !(user_id == "nidhi" || user_id == "arpan") then
    .error (400, "Invalid user ID")
  else
    let other_user := otherUser user_id
    let other_user_answered_questions := db.questions.filter
      (fun q => db.answers.any
        (fun a => a.questionId == q.id && a.userId == other_user))
    if other_user_answered_questions.isEmpty then .ok []
    else
      let current_user_answered_ids :=
        ((db.answers.filter (fun a => a.userId == user_id &&
            other_user_answered_questions.any (fun q => q.id == a.questionId))).map
          (fun a => a.questionId))
      let pending := (other_user_answered_questions.filter
        (fun q => !current_user_answered_ids.contains q.id)).map
        (fun q => PendingEntry.mk q.id q.text other_user
          (maxTsFor db q.id other_user))
      .ok (pending.insertionSort (fun x y => x.timestamp ≥ y.timestamp))

/-- The operations a client can invoke against the service. -/
inductive Op where
  | answer (env : Env) (req : AnswerRequest) (fail : Option FailPoint)
      (removeFails : Bool)
  | state (env : Env)
  | history
  | pending (u : String)
  | audio (fn : String)

/-- Effect of one operation on the server state; the read handlers touch
the database only through `SELECT`s. -/
def applyOp (st : St) : Op → St
  | .answer env req fail rf => (post_answer env req fail rf st).2
  | .state env => { st with db := (get_state env st.db).2 }
  | .history => st
  | .pending _ => st
  | .audio _ => st

/-- The state produced by `init_db` on first boot: points 0, streak 0,
`last_streak_update_date` = yesterday; the daily columns come from the
schema defaults (`schema.sql` is not part of the transaction code), so
they are parameters here. -/
def initSt (yesterday d0 : String) (r0 m0 : Nat) : St :=
  { db := { questions := [], answers := [],
            coupleState := some ⟨0, 0, yesterday, d0, r0, m0⟩,
            nextQuestionId := 1 },
    blobs := [] }

/-- Field `love_points` of a state (0 when the `CoupleState` row is absent). -/
def lovePointsOf (st : St) : Int :=
  (st.db.coupleState.map CoupleStateRow.love_points).getD 0

/-! ### Concrete fixtures -/

/-- A request-day environment used by the concrete witnesses. -/
def env0 : Env := ⟨"2026-10-12", "2026-10-11", 1000, "blob1"⟩

/-- The freshly initialized state. -/
def st0 : St := initSt "2026-10-11" "2026-10-11" 0 0

/-- A fully valid submission. -/
def reqA : AnswerRequest :=
  ⟨some "nidhi", some "Favorite color?", some "random", some "voice.webm"⟩

/-- A submission whose question text is whitespace only. -/
def reqWS : AnswerRequest :=
  ⟨some "nidhi", some " ", some "manual", some "voice.webm"⟩

/-- The user has at least one `Answers` row for the question. -/
def answeredBy (db : DB) (qid : Nat) (uid : String) : Prop :=
  ∃ a ∈ db.answers, a.questionId = qid ∧ a.userId = uid

/-- A populated store used by the pending-questions witness: the
counterpart answered both questions, the requester none. -/
def dbP : DB :=
  { questions := [⟨1, "Q one"⟩, ⟨2, "Q two"⟩],
    answers := [⟨1, "nidhi", "u1.webm", 1000⟩, ⟨2, "nidhi", "u2.webm", 2000⟩],
    coupleState := some ⟨2, 1, "2026-10-12", "2026-10-12", 1, 1⟩,
    nextQuestionId := 3 }

/-- The history fold, restricted to one question id: the effect of the
answer stream on that question entry's per-user dict. -/
def collect (i : Nat) (l : List AnswerRow)
    (m : List (String × HistoryAnswer)) : List (String × HistoryAnswer) :=
  l.foldl (fun m a =>
    if i = a.questionId then updAnswer m a.userId (mkHA a) else m) m

/-- The keep-the-newer update of `get_history`, on one dict slot. -/
def updOpt (c : Option HistoryAnswer) (ha : HistoryAnswer) :
    Option HistoryAnswer :=
  match c with
  | none => some ha
  | some old => if old.timestamp < ha.timestamp then some ha else some old

/-- The value the history fold leaves in slot `u` of question `i`. -/
def bestFold (i : Nat) (u : String) (l : List AnswerRow)
    (c : Option HistoryAnswer) : Option HistoryAnswer :=
  l.foldl (fun c a =>
    if i = a.questionId ∧ a.userId = u then updOpt c (mkHA a) else c) c

/-! ### Basic lemmas about the transaction -/

theorem resolveQuestion_coupleState (db : DB) (t : String) :
    (resolveQuestion db t).2.coupleState = db.coupleState := by
  unfold resolveQuestion
  cases db.questions.find? (fun q => q.text == t) <;> simp

theorem resolveQuestion_answers (db : DB) (t : String) :
    (resolveQuestion db t).2.answers = db.answers := by
  unfold resolveQuestion
  cases db.questions.find? (fun q => q.text == t) <;> simp

/-- Closed form of the transaction body on the success path (no injected
failure, `CoupleState` row present). -/
theorem answerTransaction_ok (env : Env) (u qt src af : String) (rf : Bool)
    (st : St) (cs : CoupleStateRow) (hcs : st.db.coupleState = some cs) :
    answerTransaction env u qt src af none rf st =
      (let qid := (resolveQuestion st.db qt).1
       let fn := env.newBlobName ++ "." ++ extOf af
       let db2 : DB := { (resolveQuestion st.db qt).2 with
         answers := (resolveQuestion st.db qt).2.answers ++
           [⟨qid, u, fn, env.now_ms⟩] }
       let pts : Int := if countAnswers db2 qid (otherUser u) = 0 then 1 else 5
       let ns : CoupleStateRow :=
         { love_points := cs.love_points + pts,
           streak_count := (streakUpdate cs pts env.today env.yesterday).1,
           last_streak_update_date :=
             (streakUpdate cs pts env.today env.yesterday).2,
           daily_progress_date := (dailyFlags cs src env.today).1,
           daily_random_answered := (dailyFlags cs src env.today).2.1,
           daily_manual_answered := (dailyFlags cs src env.today).2.2 }
       (Except.ok
          { pointAwarded := pts,
            lovePoints := ns.love_points,
            streak := ns.streak_count,
            lastStreakUpdateDate := ns.last_streak_update_date,
            dailyRandomAnswered :=
              if ns.daily_progress_date == env.today then
                ns.daily_random_answered else 0,
            dailyManualAnswered :=
              if ns.daily_progress_date == env.today then
                ns.daily_manual_answered else 0 },
        ⟨{ db2 with coupleState := some ns }, st.blobs ++ [fn]⟩)) := by
  unfold answerTransaction
  simp only [resolveQuestion_coupleState, hcs]
  rfl

/-- With a valid form, `post_answer` runs the transaction on the trimmed
question text. -/
theorem post_answer_valid (env : Env) (req : AnswerRequest)
    (fail : Option FailPoint) (rf : Bool) (st : St)
    (u qt src af : String)
    (hu : req.userId = some u) (huv : u = "nidhi" ∨ u = "arpan")
    (hq : req.questionText = some qt) (hqne : qt ≠ "")
    (hs : req.source = some src) (hsv : src = "manual" ∨ src = "random")
    (ha : req.audioFile = some af) (hane : af ≠ "")
    (haf : allowed_file af = true) :
    post_answer env req fail rf st =
      answerTransaction env u (pyStrip qt) src af fail rf st := by
  unfold post_answer
  rcases huv with rfl | rfl <;> rcases hsv with rfl | rfl <;>
    simp [validUserIdField, presentNonEmptyText, validSourceField,
      hu, hq, hs, ha, hqne, hane, haf]

theorem countAnswers_append_ne (db : DB) (l : List AnswerRow)
    (a : AnswerRow) (qid : Nat) (uid : String) (h : a.userId ≠ uid) :
    (({ db with answers := l ++ [a] } : DB).answers.filter
        (fun x => x.questionId == qid && x.userId == uid)).length
      = (l.filter (fun x => x.questionId == qid && x.userId == uid)).length := by
  simp [List.filter_append, h]

/-- Inserting the submitting user's own answer row does not change the
counterpart's answer count for the resolved question. -/
theorem countAnswers_db2 (st : St) (qt u fn : String) (ts : Nat)
    (huv : u = "nidhi" ∨ u = "arpan") :
    countAnswers
      { (resolveQuestion st.db qt).2 with
        answers := (resolveQuestion st.db qt).2.answers ++
          [⟨(resolveQuestion st.db qt).1, u, fn, ts⟩] }
      (resolveQuestion st.db qt).1 (otherUser u)
    = countAnswers st.db (resolveQuestion st.db qt).1 (otherUser u) := by
  rcases huv with rfl | rfl <;>
    simp [countAnswers, List.filter_append, resolveQuestion_answers, otherUser]

/-- The streak block when points were awarded. -/
theorem streakUpdate_pos (cs : CoupleStateRow) (pts : Int) (hp : 0 < pts)
    (today yesterday : String) :
    streakUpdate cs pts today yesterday =
      if cs.last_streak_update_date = today then
        (cs.streak_count, cs.last_streak_update_date)
      else if cs.last_streak_update_date = yesterday then
        (cs.streak_count + 1, today)
      else (1, today) := by
  by_cases h1 : cs.last_streak_update_date = today <;>
    by_cases h2 : cs.last_streak_update_date = yesterday <;>
    simp [streakUpdate, h1, h2, hp]

/-! ### Claim theorems: points, streak -/

/-- C1: on every successful answer submission the points awarded are 1
when the counterpart has no answer rows for the resolved question and 5
when it has at least one; the stored `love_points` increases by exactly
that amount and the response's `pointAwarded` reports it. -/
theorem points_award_and_accumulation
    (env : Env) (req : AnswerRequest) (rf : Bool) (st : St)
    (u qt src af : String) (cs : CoupleStateRow)
    (hu : req.userId = some u) (huv : u = "nidhi" ∨ u = "arpan")
    (hq : req.questionText = some qt) (hqne : qt ≠ "")
    (hs : req.source = some src) (hsv : src = "manual" ∨ src = "random")
    (ha : req.audioFile = some af) (hane : af ≠ "")
    (haf : allowed_file af = true)
    (hcs : st.db.coupleState = some cs) :
    ∃ resp : AnswerResponse,
      (post_answer env req none rf st).1 = .ok resp ∧
      resp.pointAwarded =
        (if countAnswers st.db (resolveQuestion st.db (pyStrip qt)).1 (otherUser u) = 0
         then 1 else 5) ∧
      ((post_answer env req none rf st).2.db.coupleState.map
          CoupleStateRow.love_points)
        = some (cs.love_points + resp.pointAwarded) ∧
      resp.lovePoints = cs.love_points + resp.pointAwarded := by
  rw [post_answer_valid env req none rf st u qt src af hu huv hq hqne hs hsv
      ha hane haf,
    answerTransaction_ok env u (pyStrip qt) src af rf st cs hcs]
  simp only [countAnswers_db2 st (pyStrip qt) u _ env.now_ms huv]
  exact ⟨_, rfl, rfl, rfl, rfl⟩

/-- C2: on every point-awarding submission the streak either extends by
one (previous update was yesterday), resets to one (gap of two days or
more), or, when `last_streak_update_date` already equals today, stays
unchanged; the stored date always ends up equal to today, so a second
point-awarding submission of the same calendar day changes neither the
date nor the streak. -/
theorem streak_update_rules
    (env : Env) (req : AnswerRequest) (rf : Bool) (st : St)
    (u qt src af : String) (cs : CoupleStateRow)
    (hu : req.userId = some u) (huv : u = "nidhi" ∨ u = "arpan")
    (hq : req.questionText = some qt) (hqne : qt ≠ "")
    (hs : req.source = some src) (hsv : src = "manual" ∨ src = "random")
    (ha : req.audioFile = some af) (hane : af ≠ "")
    (haf : allowed_file af = true)
    (hcs : st.db.coupleState = some cs) :
    ∃ cs' : CoupleStateRow,
      (post_answer env req none rf st).2.db.coupleState = some cs' ∧
      (cs.last_streak_update_date ≠ env.today →
        cs.last_streak_update_date = env.yesterday →
        cs'.streak_count = cs.streak_count + 1) ∧
      (cs.last_streak_update_date ≠ env.today →
        cs.last_streak_update_date ≠ env.yesterday →
        cs'.streak_count = 1) ∧
      (cs.last_streak_update_date = env.today →
        cs'.streak_count = cs.streak_count ∧
        cs'.last_streak_update_date = cs.last_streak_update_date) ∧
      cs'.last_streak_update_date = env.today := by
  rw [post_answer_valid env req none rf st u qt src af hu huv hq hqne hs hsv
      ha hane haf,
    answerTransaction_ok env u (pyStrip qt) src af rf st cs hcs]
  have hp : (0 : Int) <
      (if (countAnswers
            { (resolveQuestion st.db (pyStrip qt)).2 with
              answers := (resolveQuestion st.db (pyStrip qt)).2.answers ++
                [⟨(resolveQuestion st.db (pyStrip qt)).1, u,
                  env.newBlobName ++ "." ++ extOf af, env.now_ms⟩] }
            (resolveQuestion st.db (pyStrip qt)).1 (otherUser u) = 0) then 1
       else 5) := by
    split <;> norm_num
  refine ⟨_, rfl, ?_, ?_, ?_, ?_⟩ <;>
    simp only [streakUpdate_pos _ _ hp]
  · intro h1 h2; rw [if_neg h1, if_pos h2]
  · intro h1 h2; rw [if_neg h1, if_neg h2]
  · intro h1; rw [if_pos h1]; exact ⟨rfl, rfl⟩
  · by_cases h1 : cs.last_streak_update_date = env.today
    · rw [if_pos h1]; exact h1
    · rw [if_neg h1]
      by_cases h2 : cs.last_streak_update_date = env.yesterday
      · rw [if_pos h2]
      · rw [if_neg h2]

/-- C10: every successful submission awards exactly 1 or 5 points, never
0, hence strictly increases `love_points`; and whenever the stored
`last_streak_update_date` differs from today, the streak-update branch
runs and stamps today's date. -/
theorem award_positive_strict_increase
    (env : Env) (req : AnswerRequest) (rf : Bool) (st : St)
    (u qt src af : String) (cs : CoupleStateRow)
    (hu : req.userId = some u) (huv : u = "nidhi" ∨ u = "arpan")
    (hq : req.questionText = some qt) (hqne : qt ≠ "")
    (hs : req.source = some src) (hsv : src = "manual" ∨ src = "random")
    (ha : req.audioFile = some af) (hane : af ≠ "")
    (haf : allowed_file af = true)
    (hcs : st.db.coupleState = some cs) :
    ∃ resp : AnswerResponse,
      (post_answer env req none rf st).1 = .ok resp ∧
      (resp.pointAwarded = 1 ∨ resp.pointAwarded = 5) ∧
      lovePointsOf (post_answer env req none rf st).2
        = lovePointsOf st + resp.pointAwarded ∧
      lovePointsOf st < lovePointsOf (post_answer env req none rf st).2 ∧
      (cs.last_streak_update_date ≠ env.today →
        ∃ cs', (post_answer env req none rf st).2.db.coupleState = some cs' ∧
          cs'.last_streak_update_date = env.today) := by
  rw [post_answer_valid env req none rf st u qt src af hu huv hq hqne hs hsv
      ha hane haf,
    answerTransaction_ok env u (pyStrip qt) src af rf st cs hcs]
  have hp : (0 : Int) <
      (if (countAnswers
            { (resolveQuestion st.db (pyStrip qt)).2 with
              answers := (resolveQuestion st.db (pyStrip qt)).2.answers ++
                [⟨(resolveQuestion st.db (pyStrip qt)).1, u,
                  env.newBlobName ++ "." ++ extOf af, env.now_ms⟩] }
            (resolveQuestion st.db (pyStrip qt)).1 (otherUser u) = 0) then 1
       else 5) := by
    split <;> norm_num
  refine ⟨_, rfl, ?_, ?_, ?_, ?_⟩
  · dsimp only
    split
    · exact Or.inl rfl
    · exact Or.inr rfl
  · simp [lovePointsOf, hcs]
  · simp only [lovePointsOf, hcs, Option.map_some', Option.getD_some]
    omega
  · intro h1
    refine ⟨_, rfl, ?_⟩
    simp only [streakUpdate_pos _ _ hp]
    rw [if_neg h1]
    by_cases h2 : cs.last_streak_update_date = env.yesterday
    · rw [if_pos h2]
    · rw [if_neg h2]

/-! ### Claim theorems: failure semantics -/

/-- Removing a freshly written blob restores the upload folder. -/
theorem cleanup_eq (blobs : List String) (fn : String) (h : fn ∉ blobs) :
    (blobs ++ [fn]).filter (fun b => b != fn) = blobs := by
  simp only [List.filter_append]
  have h1 : List.filter (fun b => b != fn) [fn] = [] := by simp
  rw [h1, List.append_nil, List.filter_eq_self.mpr]
  intro a ha
  exact bne_iff_ne.mpr (fun e => h (e ▸ ha))

/-- C4: an exception anywhere in the transaction body after validation
rolls the database back to its pre-transaction content, deletes the
already-written blob (its own failure being swallowed), and yields a
500 response in every case. -/
theorem transaction_rollback
    (env : Env) (req : AnswerRequest) (rf : Bool) (st : St)
    (u qt src af : String) (fail : Option FailPoint)
    (hu : req.userId = some u) (huv : u = "nidhi" ∨ u = "arpan")
    (hq : req.questionText = some qt) (hqne : qt ≠ "")
    (hs : req.source = some src) (hsv : src = "manual" ∨ src = "random")
    (ha : req.audioFile = some af) (hane : af ≠ "")
    (haf : allowed_file af = true)
    (hfail : fail ≠ none ∨ st.db.coupleState = none)
    (hfresh : (env.newBlobName ++ "." ++ extOf af) ∉ st.blobs) :
    (∃ msg, (post_answer env req fail rf st).1 = .error (500, msg)) ∧
    (post_answer env req fail rf st).2.db = st.db ∧
    (rf = false → (post_answer env req fail rf st).2.blobs = st.blobs) := by
  rw [post_answer_valid env req fail rf st u qt src af hu huv hq hqne hs hsv
      ha hane haf]
  have hcl := cleanup_eq st.blobs (env.newBlobName ++ "." ++ extOf af) hfresh
  rcases hfail with hf | hnone
  · rcases fail with _ | p
    · exact absurd rfl hf
    · cases p <;>
      · rcases hcs2 : st.db.coupleState with _ | cs <;>
          simp [answerTransaction, resolveQuestion_coupleState, hcs2, hcl] <;>
          try (intro hrf; simp [hrf, hcl])
  · rcases fail with _ | p
    · simp [answerTransaction, resolveQuestion_coupleState, hnone, hcl]
      try (intro hrf; simp [hrf, hcl])
    · cases p <;>
        simp [answerTransaction, resolveQuestion_coupleState, hnone, hcl] <;>
        try (intro hrf; simp [hrf, hcl])

/-! ### Claim theorems: validation (C3) -/

/-- C3 counterexample: a whitespace-only `questionText` is empty after
trimming, yet the submission is accepted (201) and the database is
mutated, because the handler tests the raw string before stripping. -/
theorem whitespace_question_not_rejected :
    pyStrip " " = "" ∧
    (post_answer env0 reqWS none false st0).1
      = Except.ok ⟨1, 1, 1, "2026-10-12", 0, 1⟩ ∧
    (post_answer env0 reqWS none false st0).2.db ≠ st0.db := by
  refine ⟨rfl, rfl, ?_⟩
  decide

/-- C3 amended: the validation error (and the absence of any mutation)
is guaranteed exactly when the submitted `questionText` is missing or
empty before trimming; whitespace-only text is not rejected. -/
theorem empty_question_rejected
    (env : Env) (req : AnswerRequest) (fail : Option FailPoint) (rf : Bool)
    (st : St)
    (hu : validUserIdField req.userId = true)
    (hqe : req.questionText = none ∨ req.questionText = some "") :
    post_answer env req fail rf st
      = (.error (400, "Missing questionText"), st) := by
  unfold post_answer
  rcases hqe with h | h <;> simp [h, presentNonEmptyText, hu]

/-- Witness for `empty_question_rejected` at a concrete input. -/
theorem empty_question_rejected_witness :
    post_answer env0 ⟨some "nidhi", some "", some "manual", some "voice.webm"⟩
        none false st0
      = (.error (400, "Missing questionText"), st0) :=
  empty_question_rejected env0 _ none false st0 rfl (Or.inr rfl)

/-! ### Claim theorems: state snapshot (C5) -/

/-- C5: the state snapshot returns the stored daily flags when the
stored `daily_progress_date` equals today and false (0) for both flags
otherwise, and the read leaves the stored row untouched. -/
theorem get_state_flags (env : Env) (db : DB) (s : CoupleStateRow)
    (hcs : db.coupleState = some s) :
    (get_state env db).2 = db ∧
    ∃ resp : StateResponse,
      (get_state env db).1 = .ok resp ∧
      resp.lovePoints = s.love_points ∧
      resp.streak = s.streak_count ∧
      resp.lastStreakUpdateDate = s.last_streak_update_date ∧
      (s.daily_progress_date = env.today →
        resp.dailyRandomAnswered = s.daily_random_answered ∧
        resp.dailyManualAnswered = s.daily_manual_answered) ∧
      (s.daily_progress_date ≠ env.today →
        resp.dailyRandomAnswered = 0 ∧ resp.dailyManualAnswered = 0) := by
  refine ⟨by simp [get_state, hcs],
    ⟨{ lovePoints := s.love_points, streak := s.streak_count,
       lastStreakUpdateDate := s.last_streak_update_date,
       dailyRandomAnswered :=
         if s.daily_progress_date == env.today then s.daily_random_answered
         else 0,
       dailyManualAnswered :=
         if s.daily_progress_date == env.today then s.daily_manual_answered
         else 0 },
      by simp [get_state, hcs], rfl, rfl, rfl, ?_, ?_⟩⟩
  · intro h; simp [h]
  · intro h; simp [h]

/-- Witness for `get_state_flags` at a concrete store. -/
theorem get_state_flags_witness :
    (get_state env0 st0.db).2 = st0.db ∧
    ∃ resp : StateResponse,
      (get_state env0 st0.db).1 = .ok resp ∧
      resp.lovePoints = 0 ∧
      resp.streak = 0 ∧
      resp.lastStreakUpdateDate = "2026-10-11" ∧
      ("2026-10-11" = "2026-10-12" →
        resp.dailyRandomAnswered = 0 ∧ resp.dailyManualAnswered = 0) ∧
      ("2026-10-11" ≠ "2026-10-12" →
        resp.dailyRandomAnswered = 0 ∧ resp.dailyManualAnswered = 0) :=
  get_state_flags env0 st0.db ⟨0, 0, "2026-10-11", "2026-10-11", 0, 0⟩ rfl

/-- Witness for `points_award_and_accumulation` at a concrete submission. -/
theorem points_award_and_accumulation_witness :
    ∃ resp : AnswerResponse,
      (post_answer env0 reqA none false st0).1 = .ok resp ∧
      resp.pointAwarded =
        (if countAnswers st0.db
              (resolveQuestion st0.db (pyStrip "Favorite color?")).1
              (otherUser "nidhi") = 0
         then 1 else 5) ∧
      ((post_answer env0 reqA none false st0).2.db.coupleState.map
          CoupleStateRow.love_points) = some (0 + resp.pointAwarded) ∧
      resp.lovePoints = 0 + resp.pointAwarded :=
  points_award_and_accumulation env0 reqA false st0 "nidhi" "Favorite color?"
    "random" "voice.webm" ⟨0, 0, "2026-10-11", "2026-10-11", 0, 0⟩
    rfl (Or.inl rfl) rfl (by decide) rfl (Or.inr rfl) rfl (by decide)
    (by decide) rfl

/-- Witness for `streak_update_rules` at a concrete submission. -/
theorem streak_update_rules_witness :
    ∃ cs' : CoupleStateRow,
      (post_answer env0 reqA none false st0).2.db.coupleState = some cs' ∧
      ("2026-10-11" ≠ "2026-10-12" → "2026-10-11" = "2026-10-11" →
        cs'.streak_count = 0 + 1) ∧
      ("2026-10-11" ≠ "2026-10-12" → "2026-10-11" ≠ "2026-10-11" →
        cs'.streak_count = 1) ∧
      ("2026-10-11" = "2026-10-12" →
        cs'.streak_count = 0 ∧ cs'.last_streak_update_date = "2026-10-11") ∧
      cs'.last_streak_update_date = "2026-10-12" :=
  streak_update_rules env0 reqA false st0 "nidhi" "Favorite color?"
    "random" "voice.webm" ⟨0, 0, "2026-10-11", "2026-10-11", 0, 0⟩
    rfl (Or.inl rfl) rfl (by decide) rfl (Or.inr rfl) rfl (by decide)
    (by decide) rfl

/-- Witness for `award_positive_strict_increase` at a concrete submission. -/
theorem award_positive_strict_increase_witness :
    ∃ resp : AnswerResponse,
      (post_answer env0 reqA none false st0).1 = .ok resp ∧
      (resp.pointAwarded = 1 ∨ resp.pointAwarded = 5) ∧
      lovePointsOf (post_answer env0 reqA none false st0).2
        = lovePointsOf st0 + resp.pointAwarded ∧
      lovePointsOf st0 < lovePointsOf (post_answer env0 reqA none false st0).2 ∧
      ("2026-10-11" ≠ "2026-10-12" →
        ∃ cs', (post_answer env0 reqA none false st0).2.db.coupleState
            = some cs' ∧
          cs'.last_streak_update_date = "2026-10-12") :=
  award_positive_strict_increase env0 reqA false st0 "nidhi" "Favorite color?"
    "random" "voice.webm" ⟨0, 0, "2026-10-11", "2026-10-11", 0, 0⟩
    rfl (Or.inl rfl) rfl (by decide) rfl (Or.inr rfl) rfl (by decide)
    (by decide) rfl

/-- Witness for `transaction_rollback`: failure injected at the state
update (after the blob was written). -/
theorem transaction_rollback_witness :
    (∃ msg, (post_answer env0 reqA (some .updateState) false st0).1
        = .error (500, msg)) ∧
    (post_answer env0 reqA (some .updateState) false st0).2.db = st0.db ∧
    (false = false →
      (post_answer env0 reqA (some .updateState) false st0).2.blobs
        = st0.blobs) :=
  transaction_rollback env0 reqA false st0 "nidhi" "Favorite color?"
    "random" "voice.webm" (some .updateState)
    rfl (Or.inl rfl) rfl (by decide) rfl (Or.inr rfl) rfl (by decide)
    (by decide) (Or.inl (by decide)) (by decide)

/-! ### Claim theorems: the lovePoints invariant (C8) -/

theorem get_state_snd (env : Env) (db : DB) : (get_state env db).2 = db := by
  rcases hx : db.coupleState with _ | s <;> simp [get_state, hx]

theorem answerTransaction_mono (env : Env) (u qt src af : String)
    (fail : Option FailPoint) (rf : Bool) (st : St) :
    lovePointsOf st ≤
      lovePointsOf (answerTransaction env u qt src af fail rf st).2 := by
  have hrq := resolveQuestion_coupleState st.db qt
  simp only [answerTransaction]
  repeat' split
  all_goals
    simp_all only [lovePointsOf, Option.map_some', Option.getD_some, le_refl]
  all_goals rw [← hrq]
  all_goals simp only [Option.map_some', Option.getD_some]
  all_goals omega

theorem post_answer_mono (env : Env) (req : AnswerRequest)
    (fail : Option FailPoint) (rf : Bool) (st : St) :
    lovePointsOf st ≤ lovePointsOf (post_answer env req fail rf st).2 := by
  unfold post_answer
  split
  · exact le_refl _
  split
  · exact le_refl _
  split
  · exact le_refl _
  split
  · exact le_refl _
  split
  · exact le_refl _
  exact answerTransaction_mono _ _ _ _ _ _ _ _

theorem applyOp_mono (st : St) (op : Op) :
    lovePointsOf st ≤ lovePointsOf (applyOp st op) := by
  cases op with
  | answer env req fail rf => exact post_answer_mono env req fail rf st
  | state env => simp [applyOp, get_state_snd]
  | history => exact le_refl _
  | pending _ => exact le_refl _
  | audio _ => exact le_refl _

theorem foldl_lovePoints_nonneg (ops : List Op) (st : St)
    (h : 0 ≤ lovePointsOf st) :
    0 ≤ lovePointsOf (ops.foldl applyOp st) := by
  induction ops generalizing st with
  | nil => exact h
  | cons op rest ih => exact ih _ (le_trans h (applyOp_mono st op))

/-- C8: `love_points` starts at 0, no operation of the service ever
decreases it, and it stays non-negative along any sequence of
operations. -/
theorem lovePoints_invariant :
    (∀ (st : St) (op : Op), lovePointsOf st ≤ lovePointsOf (applyOp st op)) ∧
    (∀ (y d0 : String) (r0 m0 : Nat),
      lovePointsOf (initSt y d0 r0 m0) = 0) ∧
    (∀ (y d0 : String) (r0 m0 : Nat) (ops : List Op),
      0 ≤ lovePointsOf (ops.foldl applyOp (initSt y d0 r0 m0))) :=
  ⟨applyOp_mono, fun _ _ _ _ => rfl,
   fun y d0 r0 m0 ops => foldl_lovePoints_nonneg ops _ (le_refl 0)⟩

/-! ### Claim theorems: audio path safety (C9) -/

/-- C9: a filename containing a parent-directory segment or starting
with a slash is rejected with 400 independently of the blob store (so
before any filesystem access); a safe filename that names no existing
blob yields 404. -/
theorem serve_audio_path_safety (blobs : List String) (fn : String) :
    ((hasDotDot fn.data || startsSlash fn.data) = true →
      serve_audio blobs fn = .error (400, "Invalid filename") ∧
      ∀ blobs', serve_audio blobs' fn = serve_audio blobs fn) ∧
    ((hasDotDot fn.data || startsSlash fn.data) = false →
      blobs.contains fn = false →
      serve_audio blobs fn = .error (404, "Audio file not found")) := by
  constructor
  · intro h
    constructor
    · simp [serve_audio, h]
    · intro blobs'; simp [serve_audio, h]
  · intro h hmem
    have hnm : fn ∉ blobs := by simpa using hmem
    simp [serve_audio, h, hnm]

/-- Witness for `serve_audio_path_safety`: a traversal filename and a
missing blob. -/
theorem serve_audio_path_safety_witness :
    serve_audio ["a.mp3"] "../b" = .error (400, "Invalid filename") ∧
    serve_audio ["a.mp3"] "b.mp3" = .error (404, "Audio file not found") :=
  ⟨((serve_audio_path_safety ["a.mp3"] "../b").1 (by decide)).1,
   (serve_audio_path_safety ["a.mp3"] "b.mp3").2 (by decide) (by decide)⟩

/-! ### Claim theorems: pending questions (C7) -/

theorem any_answer_iff (db : DB) (qid : Nat) (uid : String) :
    (db.answers.any (fun a => a.questionId == qid && a.userId == uid)) = true
      ↔ answeredBy db qid uid := by
  simp [answeredBy, List.any_eq_true]

/-- C7: for a valid identity the pending query returns exactly the
questions the counterpart answered and the requester did not, each
carrying the counterpart's greatest answer timestamp, sorted descending
by it; any other identity gets a 400 whose computation never consults
the database. -/
theorem pending_questions_spec (db : DB) (user_id : String) :
    (user_id ≠ "nidhi" → user_id ≠ "arpan" →
      get_pending_questions db user_id = .error (400, "Invalid user ID") ∧
      ∀ db', get_pending_questions db' user_id
          = get_pending_questions db user_id) ∧
    ((user_id = "nidhi" ∨ user_id = "arpan") →
      ∃ l, get_pending_questions db user_id = .ok l ∧
        (∀ e ∈ l,
          answeredBy db e.id (otherUser user_id) ∧
          ¬ answeredBy db e.id user_id ∧
          e.timestamp = maxTsFor db e.id (otherUser user_id) ∧
          e.asked_by = otherUser user_id) ∧
        (∀ q ∈ db.questions,
          answeredBy db q.id (otherUser user_id) →
          ¬ answeredBy db q.id user_id →
          ∃ e ∈ l, e.id = q.id ∧ e.text = q.text) ∧
        l.Pairwise (fun x y => y.timestamp ≤ x.timestamp)) := by
  constructor
  · intro h1 h2
    constructor
    · simp [get_pending_questions, h1, h2]
    · intro db'; simp [get_pending_questions, h1, h2]
  · intro hv
    have hcond : (user_id == "nidhi" || user_id == "arpan") = true := by
      rcases hv with rfl | rfl <;> simp
    simp only [get_pending_questions, hcond, Bool.not_true,
      Bool.false_eq_true, if_false]
    by_cases hne : (db.questions.filter (fun q => db.answers.any
        (fun a => a.questionId == q.id &&
          a.userId == otherUser user_id))).isEmpty
    · refine ⟨[], by rw [if_pos hne], by simp, ?_, by simp⟩
      intro q hq hother _
      exfalso
      have hmem : q ∈ db.questions.filter (fun q => db.answers.any
          (fun a => a.questionId == q.id && a.userId == otherUser user_id)) :=
        List.mem_filter.mpr ⟨hq, (any_answer_iff db q.id _).mpr hother⟩
      rw [List.isEmpty_iff] at hne
      rw [hne] at hmem
      exact List.not_mem_nil q hmem
    · refine ⟨_, by rw [if_neg hne], ?_, ?_, ?_⟩
      · intro e he
        rw [List.mem_insertionSort] at he
        obtain ⟨q, hqmem, rfl⟩ := List.mem_map.mp he
        obtain ⟨hq1, hq2⟩ := List.mem_filter.mp hqmem
        obtain ⟨hqq, hqany⟩ := List.mem_filter.mp hq1
        refine ⟨(any_answer_iff db q.id _).mp hqany, ?_, rfl, rfl⟩
        intro ⟨a, hamem, haq, hau⟩
        have hmm : q.id ∈ (db.answers.filter (fun a => a.userId == user_id &&
            (db.questions.filter (fun q => db.answers.any
              (fun a => a.questionId == q.id &&
                a.userId == otherUser user_id))).any
              (fun q => q.id == a.questionId))).map
            (fun a => a.questionId) := by
          refine List.mem_map.mpr ⟨a, List.mem_filter.mpr ⟨hamem, ?_⟩, haq⟩
          simp only [Bool.and_eq_true, beq_iff_eq, List.any_eq_true]
          exact ⟨hau, ⟨q, hq1, by simp [haq]⟩⟩
        simp only [Bool.not_eq_true', List.contains_eq_any_beq,
          List.any_eq_false] at hq2
        exact hq2 _ hmm (by simp)
      · intro q hq hother hnuser
        have hq1 : q ∈ db.questions.filter (fun q => db.answers.any
            (fun a => a.questionId == q.id &&
              a.userId == otherUser user_id)) :=
          List.mem_filter.mpr ⟨hq, (any_answer_iff db q.id _).mpr hother⟩
        have hq2 : ((db.answers.filter (fun a => a.userId == user_id &&
            (db.questions.filter (fun q => db.answers.any
              (fun a => a.questionId == q.id &&
                a.userId == otherUser user_id))).any
              (fun q => q.id == a.questionId))).map
            (fun a => a.questionId)).contains q.id = false := by
          rw [List.contains_eq_any_beq, List.any_eq_false]
          intro x hx hbeq
          obtain ⟨a, hamem, haq⟩ := List.mem_map.mp hx
          obtain ⟨hamem0, hpred⟩ := List.mem_filter.mp hamem
          simp only [Bool.and_eq_true, beq_iff_eq] at hpred
          rw [beq_iff_eq] at hbeq
          exact hnuser ⟨a, hamem0, by rw [haq, ← hbeq], hpred.1⟩
        refine ⟨PendingEntry.mk q.id q.text (otherUser user_id)
            (maxTsFor db q.id (otherUser user_id)), ?_, rfl, rfl⟩
        rw [List.mem_insertionSort]
        refine List.mem_map.mpr ⟨q, List.mem_filter.mpr ⟨hq1, ?_⟩, rfl⟩
        rw [hq2]
        rfl
      · haveI : IsTotal PendingEntry
            (fun x y => x.timestamp ≥ y.timestamp) :=
          ⟨fun a b => le_total b.timestamp a.timestamp⟩
        haveI : IsTrans PendingEntry
            (fun x y => x.timestamp ≥ y.timestamp) :=
          ⟨fun a b c h1 h2 => le_trans h2 h1⟩
        exact List.sorted_insertionSort _ _

/-- Witness for `pending_questions_spec`: the invalid identity is
rejected, and for a valid identity every returned question was answered
by the counterpart only. -/
theorem pending_questions_spec_witness :
    get_pending_questions dbP "charlie" = .error (400, "Invalid user ID") ∧
    ∃ l, get_pending_questions dbP "arpan" = .ok l ∧
      ∀ e ∈ l, answeredBy dbP e.id "nidhi" ∧ ¬ answeredBy dbP e.id "arpan" := by
  constructor
  · exact ((pending_questions_spec dbP "charlie").1 (by decide) (by decide)).1
  · obtain ⟨l, h1, h2, -, -⟩ :=
      (pending_questions_spec dbP "arpan").2 (Or.inr rfl)
    exact ⟨l, h1, fun e he => ⟨(h2 e he).1, (h2 e he).2.1⟩⟩

/-! ### History fold lemmas (C6) -/

theorem lookup_map_replace_self (m : List (String × HistoryAnswer))
    (u : String) (ha : HistoryAnswer) :
    (m.map (fun p => if p.1 = u then (u, ha) else p)).lookup u
      = (m.lookup u).map (fun _ => ha) := by
  induction m with
  | nil => rfl
  | cons p m ih =>
    obtain ⟨k, v⟩ := p
    by_cases h : k = u
    · subst h
      simp [List.lookup_cons]
    · have h2 : (u == k) = false := by simpa using Ne.symm h
      simp [List.lookup_cons, h, h2, ih]

theorem lookup_map_replace_other (m : List (String × HistoryAnswer))
    (u : String) (ha : HistoryAnswer) (u' : String) (hne : u' ≠ u) :
    (m.map (fun p => if p.1 = u then (u, ha) else p)).lookup u'
      = m.lookup u' := by
  induction m with
  | nil => rfl
  | cons p m ih =>
    obtain ⟨k, v⟩ := p
    by_cases h : k = u
    · subst h
      have h1 : (u' == k) = false := by simpa using hne
      simp [List.lookup_cons, h1, ih]
    · by_cases h2 : u' = k
      · subst h2
        have h3 : (u' == u') = true := by simp
        simp [List.lookup_cons, h, h3]
      · have h3 : (u' == k) = false := by simpa using h2
        simp [List.lookup_cons, h, h3, ih]

theorem lookup_updAnswer (m : List (String × HistoryAnswer)) (u : String)
    (ha : HistoryAnswer) (u' : String) :
    (updAnswer m u ha).lookup u'
      = if u' = u then updOpt (m.lookup u) ha else m.lookup u' := by
  cases hl : m.lookup u with
  | none =>
    by_cases h : u' = u
    · subst h
      simp only [updAnswer, hl]
      rw [List.lookup_append, hl]
      simp [updOpt, List.lookup_cons]
    · simp only [updAnswer, hl]
      rw [List.lookup_append]
      have h2 : (u' == u) = false := by simpa using h
      simp [h, h2, List.lookup_cons]
  | some old =>
    by_cases ht : old.timestamp < ha.timestamp
    · simp only [updAnswer, hl, if_pos ht]
      by_cases h : u' = u
      · subst h
        rw [lookup_map_replace_self, hl]
        simp [updOpt, ht]
      · rw [lookup_map_replace_other m u ha u' h, if_neg h]
    · simp only [updAnswer, hl, if_neg ht]
      by_cases h : u' = u
      · subst h
        rw [hl]
        simp [updOpt, ht]
      · rw [if_neg h]

theorem collect_cons (i : Nat) (a : AnswerRow) (l : List AnswerRow)
    (m : List (String × HistoryAnswer)) :
    collect i (a :: l) m
      = collect i l
          (if i = a.questionId then updAnswer m a.userId (mkHA a) else m) :=
  rfl

theorem bestFold_cons (i : Nat) (u : String) (a : AnswerRow)
    (l : List AnswerRow) (c : Option HistoryAnswer) :
    bestFold i u (a :: l) c
      = bestFold i u l
          (if i = a.questionId ∧ a.userId = u then updOpt c (mkHA a)
           else c) :=
  rfl

theorem lookup_collect (i : Nat) (u : String) (l : List AnswerRow)
    (m : List (String × HistoryAnswer)) :
    (collect i l m).lookup u = bestFold i u l (m.lookup u) := by
  induction l generalizing m with
  | nil => rfl
  | cons a l ih =>
    rw [collect_cons, bestFold_cons, ih]
    congr 1
    by_cases hq : i = a.questionId
    · rw [if_pos hq, lookup_updAnswer]
      by_cases hu : a.userId = u
      · rw [if_pos hu.symm, if_pos ⟨hq, hu⟩, hu]
      · rw [if_neg (fun e => hu e.symm), if_neg (fun hand => hu hand.2)]
    · rw [if_neg hq, if_neg (fun hand => hq hand.1)]

theorem updOpt_spec (c : Option HistoryAnswer) (ha : HistoryAnswer) :
    ∃ x, updOpt c ha = some x ∧ ha.timestamp ≤ x.timestamp ∧
      (∀ old, c = some old → old.timestamp ≤ x.timestamp) ∧
      (x = ha ∨ c = some x) := by
  cases c with
  | none => exact ⟨ha, rfl, le_refl _, fun old h => Option.noConfusion h, Or.inl rfl⟩
  | some old =>
    by_cases ht : old.timestamp < ha.timestamp
    · refine ⟨ha, by simp [updOpt, ht], le_refl _, ?_, Or.inl rfl⟩
      intro o h
      cases h
      exact le_of_lt ht
    · refine ⟨old, by simp [updOpt, ht], le_of_not_lt ht, ?_, Or.inr rfl⟩
      intro o h
      cases h
      exact le_refl _

theorem bestFold_none_iff (i : Nat) (u : String) (l : List AnswerRow)
    (c : Option HistoryAnswer) :
    bestFold i u l c = none ↔
      c = none ∧ ∀ a ∈ l, ¬(a.questionId = i ∧ a.userId = u) := by
  induction l generalizing c with
  | nil =>
    simp [bestFold]
  | cons a l ih =>
    rw [bestFold_cons]
    by_cases hg : i = a.questionId ∧ a.userId = u
    · rw [if_pos hg]
      obtain ⟨x, hx, -, -, -⟩ := updOpt_spec c (mkHA a)
      rw [hx, ih]
      constructor
      · rintro ⟨h, -⟩; cases h
      · rintro ⟨-, hall⟩
        exact absurd ⟨hg.1.symm, hg.2⟩ (hall a (List.mem_cons_self a l))
    · rw [if_neg hg, ih]
      constructor
      · rintro ⟨hc, hall⟩
        refine ⟨hc, ?_⟩
        intro b hb
        rcases List.mem_cons.mp hb with rfl | hb2
        · rintro ⟨h1, h2⟩; exact hg ⟨h1.symm, h2⟩
        · exact hall b hb2
      · rintro ⟨hc, hall⟩
        exact ⟨hc, fun b hb => hall b (List.mem_cons_of_mem a hb)⟩

theorem bestFold_some (i : Nat) (u : String) (l : List AnswerRow)
    (c : Option HistoryAnswer) (ha : HistoryAnswer)
    (h : bestFold i u l c = some ha) :
    (∀ a ∈ l, a.questionId = i → a.userId = u →
        a.timestamp ≤ ha.timestamp) ∧
    (∀ old, c = some old → old.timestamp ≤ ha.timestamp) ∧
    ((∃ a ∈ l, a.questionId = i ∧ a.userId = u ∧ mkHA a = ha)
      ∨ c = some ha) := by
  induction l generalizing c with
  | nil =>
    refine ⟨by simp, ?_, Or.inr h⟩
    intro old hc
    rw [hc] at h
    cases h
    exact le_refl _
  | cons a l ih =>
    rw [bestFold_cons] at h
    by_cases hg : i = a.questionId ∧ a.userId = u
    · rw [if_pos hg] at h
      obtain ⟨H1, H2, H3⟩ := ih _ h
      obtain ⟨x, hx, hxle, hxold, hxor⟩ := updOpt_spec c (mkHA a)
      have hxha : x.timestamp ≤ ha.timestamp := H2 x hx
      constructor
      · intro b hb hb1 hb2
        rcases List.mem_cons.mp hb with rfl | hb3
        · exact le_trans hxle hxha
        · exact H1 b hb3 hb1 hb2
      constructor
      · intro old hc
        exact le_trans (hxold old hc) hxha
      · rcases H3 with ⟨b, hb, hprops⟩ | hceq
        · exact Or.inl ⟨b, List.mem_cons_of_mem a hb, hprops⟩
        · rw [hx] at hceq
          cases hceq
          rcases hxor with rfl | hcx
          · exact Or.inl ⟨a, List.mem_cons_self a l, hg.1.symm, hg.2, rfl⟩
          · exact Or.inr hcx
    · rw [if_neg hg] at h
      obtain ⟨H1, H2, H3⟩ := ih _ h
      constructor
      · intro b hb hb1 hb2
        rcases List.mem_cons.mp hb with rfl | hb3
        · exact absurd ⟨hb1.symm, hb2⟩ hg
        · exact H1 b hb3 hb1 hb2
      constructor
      · exact H2
      · rcases H3 with ⟨b, hb, hprops⟩ | hceq
        · exact Or.inl ⟨b, List.mem_cons_of_mem a hb, hprops⟩
        · exact Or.inr hceq

theorem nodup_keys_updAnswer (m : List (String × HistoryAnswer))
    (u : String) (ha : HistoryAnswer)
    (h : (m.map Prod.fst).Nodup) :
    ((updAnswer m u ha).map Prod.fst).Nodup := by
  cases hl : m.lookup u with
  | none =>
    simp only [updAnswer, hl, List.map_append]
    rw [List.nodup_append]
    refine ⟨h, by simp, ?_⟩
    intro x hx
    simp only [List.map_cons, List.map_nil, List.mem_singleton]
    intro hxu
    subst hxu
    obtain ⟨p, hp, hp1⟩ := List.mem_map.mp hx
    rw [List.lookup_eq_none_iff] at hl
    have := hl p hp
    rw [hp1] at this
    simp at this
  | some old =>
    by_cases ht : old.timestamp < ha.timestamp
    · simp only [updAnswer, hl, if_pos ht, List.map_map]
      have : (fun p : String × HistoryAnswer =>
          (if p.1 = u then (u, ha) else p).1) = fun p => p.1 := by
        funext p
        by_cases hp : p.1 = u
        · simp [hp]
        · simp [hp]
      rw [show (Prod.fst ∘ fun p : String × HistoryAnswer =>
          if p.1 = u then (u, ha) else p)
          = fun p : String × HistoryAnswer => p.1 from funext fun p => by
            by_cases hp : p.1 = u <;> simp [hp]]
      exact h
    · simpa only [updAnswer, hl, if_neg ht] using h

theorem nodup_keys_collect (i : Nat) (l : List AnswerRow)
    (m : List (String × HistoryAnswer)) (h : (m.map Prod.fst).Nodup) :
    ((collect i l m).map Prod.fst).Nodup := by
  induction l generalizing m with
  | nil => exact h
  | cons a l ih =>
    rw [collect_cons]
    by_cases hg : i = a.questionId
    · rw [if_pos hg]
      exact ih _ (nodup_keys_updAnswer m a.userId (mkHA a) h)
    · rw [if_neg hg]
      exact ih _ h

theorem lookup_of_mem_nodup (m : List (String × HistoryAnswer))
    (p : String × HistoryAnswer) (hnd : (m.map Prod.fst).Nodup)
    (hp : p ∈ m) : m.lookup p.1 = some p.2 := by
  induction m with
  | nil => cases hp
  | cons q m ih =>
    obtain ⟨k, v⟩ := q
    rcases List.mem_cons.mp hp with rfl | hp2
    · simp [List.lookup_cons]
    · rw [List.map_cons] at hnd
      have hk : p.1 ≠ k := by
        intro e
        exact (List.nodup_cons.mp hnd).1
          (e ▸ List.mem_map.mpr ⟨p, hp2, rfl⟩)
      have hkb : (p.1 == k) = false := by simpa using hk
      simp [List.lookup_cons, hkb]
      exact ih (List.nodup_cons.mp hnd).2 hp2

theorem mem_of_lookup_eq_some (m : List (String × HistoryAnswer))
    (u : String) (ha : HistoryAnswer) (h : m.lookup u = some ha) :
    (u, ha) ∈ m := by
  induction m with
  | nil => cases h
  | cons q m ih =>
    obtain ⟨k, v⟩ := q
    by_cases hk : u = k
    · subst hk
      rw [List.lookup_cons_self] at h
      cases h
      exact List.mem_cons_self _ _
    · have hkb : (u == k) = false := by simpa using hk
      rw [List.lookup_cons, hkb] at h
      exact List.mem_cons_of_mem _ (ih h)

theorem foldl_map_exchange (l : List AnswerRow) (es : List HistoryEntry) :
    l.foldl (fun es a => es.map (stepEntry a)) es
      = es.map (fun e => l.foldl (fun e a => stepEntry a e) e) := by
  induction l generalizing es with
  | nil => simp
  | cons a l ih =>
    rw [List.foldl_cons, ih, List.map_map]
    rfl

theorem perEntry_fold (l : List AnswerRow) (e : HistoryEntry) :
    l.foldl (fun e a => stepEntry a e) e
      = ⟨e.id, e.text, collect e.id l e.answers⟩ := by
  induction l generalizing e with
  | nil => rfl
  | cons a l ih =>
    rw [List.foldl_cons, ih, collect_cons]
    unfold stepEntry
    by_cases h : e.id = a.questionId
    · rw [if_pos h, if_pos h]
    · rw [if_neg h, if_neg h]

/-- C6: the history listing covers exactly the stored questions; each
entry keeps at most one answer per user, namely one whose timestamp is
maximal among that user's answers to the question (and an entry exists
for every user who answered); entries are ordered by greatest retained
timestamp descending, questions with no answers keyed 0. -/
theorem history_latest_per_user_sorted (db : DB) :
    ((get_history db).map HistoryEntry.id).Perm
      (db.questions.map QuestionRow.id) ∧
    (∀ e ∈ get_history db,
      (e.answers.map Prod.fst).Nodup ∧
      (∀ p ∈ e.answers,
        (∃ a ∈ db.answers, a.questionId = e.id ∧ a.userId = p.1 ∧
            mkHA a = p.2) ∧
        (∀ a ∈ db.answers, a.questionId = e.id → a.userId = p.1 →
            a.timestamp ≤ p.2.timestamp)) ∧
      (∀ u, (∃ a ∈ db.answers, a.questionId = e.id ∧ a.userId = u) →
          ∃ ha, (u, ha) ∈ e.answers)) ∧
    (get_history db).Pairwise (fun x y => histKey y ≤ histKey x) := by
  have hget : get_history db
      = ((db.questions.insertionSort (fun x y => x.id ≥ y.id)).map
          (fun q => HistoryEntry.mk q.id q.text
            (collect q.id
              (db.answers.insertionSort
                (fun x y => x.timestamp ≥ y.timestamp)) []))).insertionSort
          (fun x y => histKey x ≥ histKey y) := by
    simp only [get_history]
    rw [foldl_map_exchange, List.map_map]
    simp only [Function.comp_def, perEntry_fold]
  rw [hget]
  refine ⟨?_, ?_, ?_⟩
  · refine ((List.perm_insertionSort _ _).map HistoryEntry.id).trans ?_
    rw [List.map_map]
    exact (List.perm_insertionSort _ _).map QuestionRow.id
  · intro e he
    rw [List.mem_insertionSort] at he
    obtain ⟨q, hq, rfl⟩ := List.mem_map.mp he
    refine ⟨nodup_keys_collect _ _ [] (by simp), ?_, ?_⟩
    · intro p hp
      have hlk := lookup_of_mem_nodup _ p
        (nodup_keys_collect q.id
          (db.answers.insertionSort (fun x y => x.timestamp ≥ y.timestamp))
          [] (by simp)) hp
      rw [lookup_collect] at hlk
      simp only [List.lookup_nil] at hlk
      obtain ⟨H1, -, H3⟩ := bestFold_some _ _ _ _ _ hlk
      constructor
      · rcases H3 with ⟨a, haS, h1, h2, h3⟩ | hnone
        · exact ⟨a, (List.mem_insertionSort _).mp haS, h1, h2, h3⟩
        · cases hnone
      · intro a haDB h1 h2
        exact H1 a ((List.mem_insertionSort _).mpr haDB) h1 h2
    · rintro u ⟨a, haDB, h1, h2⟩
      cases hb : bestFold q.id u
          (db.answers.insertionSort (fun x y => x.timestamp ≥ y.timestamp))
          none with
      | none =>
        rw [bestFold_none_iff] at hb
        exact absurd ⟨h1, h2⟩ (hb.2 a ((List.mem_insertionSort _).mpr haDB))
      | some ha =>
        refine ⟨ha, ?_⟩
        apply mem_of_lookup_eq_some
        rw [lookup_collect]
        simpa using hb
  · haveI : IsTotal HistoryEntry (fun x y => histKey x ≥ histKey y) :=
      ⟨fun a b => le_total (histKey b) (histKey a)⟩
    haveI : IsTrans HistoryEntry (fun x y => histKey x ≥ histKey y) :=
      ⟨fun a b c h1 h2 => le_trans h2 h1⟩
    exact List.sorted_insertionSort _ _

/-- Witness for `history_latest_per_user_sorted` on a concrete store. -/
theorem history_latest_per_user_sorted_witness :
    ((get_history dbP).map HistoryEntry.id).Perm [1, 2] ∧
    (get_history dbP).Pairwise (fun x y => histKey y ≤ histKey x) ∧
    (∀ e ∈ get_history dbP, (e.answers.map Prod.fst).Nodup) := by
  obtain ⟨h1, h2, h3⟩ := history_latest_per_user_sorted dbP
  exact ⟨h1, h3, fun e he => (h2 e he).1⟩

end Journal
